import Mathlib

/-!
Verification of the UTemplates HTML-construction library.

The definitions below are a shallow embedding of the library's core:

* `UTemplates.Scalar`, `UTemplates.pyStr`      : Python scalar values and `str()`
* `UTemplates.htmlEscape`                      : `html.escape`
* `UTemplates.AttrVal`, `UTemplates.attrPairStr`, `UTemplates.attributesStr`
    : attribute values and `BaseHTMLElement._attributes`
* `UTemplates.HTMLElement`, `UTemplates.ContentItem`
    : the post-constructor state of `BaseHTMLElement`, whose content items are
      scalars, nested `BaseHTMLElement`s, or `SafeHTMLElement`s
* `UTemplates.convert_value`                   : `utils.convert_value`
* `UTemplates.elem_to_string`, `UTemplates.elem_content`, `UTemplates.content_list`,
  `UTemplates.item_string`                     : `BaseHTMLElement.to_string` and
      `_content` (with the per-item escape/convert helper)
* `UTemplates.BaseHTMLElement_init`            : `BaseHTMLElement.__init__`
* `UTemplates.render`, `UTemplates.grouped_to_string` : `rendering.render` and
      `GroupedBaseElement.to_string`
* `UTemplates.load_config`                     : `ConfigurationManager._load_config`

Python exceptions are modelled with `Except`; machine-level details (imports,
I/O) are abstracted into explicit parameters (an association list standing for
the file system, a predicate standing for `importlib` resolution).
-/

deriving instance DecidableEq for Except

namespace UTemplates

/-- Python exceptions that the modelled code can raise. -/
inductive PyError where
  | typeError
  | fileNotFound
  | valueError
  | jsonError
  | importError
  deriving DecidableEq, Repr

/-- Python scalar (non-element) values that appear as element content. -/
inductive Scalar where
  | s (text : String)
  | i (int : Int)
  | b (bool : Bool)
  | none_
  deriving DecidableEq, Repr

/-- Python `str()` on a scalar value. -/
def pyStr : Scalar → String
  | .s t => t
  | .i n => toString n
  | .b true => "True"
  | .b false => "False"
  | .none_ => "None"

/-- Python `html.escape` (quote=True): replaces the five special characters. -/
def htmlEscape (s : String) : String :=
  String.join (s.toList.map fun c =>
    if c = '&' then "&amp;"
    else if c = '<' then "&lt;"
    else if c = '>' then "&gt;"
    else if c = '"' then "&quot;"
    else if c = '\'' then "&#x27;"
    else String.singleton c)

/-- A value stored in a `BaseHTMLElement`'s attribute dictionary: Python
`None`, a `bool`, a `str`, or an `int`. -/
inductive AttrVal where
  | vNone
  | vBool (b : Bool)
  | vStr (s : String)
  | vInt (n : Int)
  deriving DecidableEq, Repr

/-- An insertion-ordered Python `dict[str, any]` of attributes. -/
abbrev Attrs := List (String × AttrVal)

/-- Python `d.get(k)`: the stored value, or `None` when the key is absent. -/
def dictGet (d : Attrs) (k : String) : AttrVal :=
  match d.find? (fun p => p.1 = k) with
  | some p => p.2
  | none => .vNone

/-- Python `d[k] = v`: update in place when the key exists (keeping its
position in insertion order), otherwise append at the end. -/
def dictSet (d : Attrs) (k : String) (v : AttrVal) : Attrs :=
  if d.any (fun p => p.1 = k) then
    d.map (fun p => if p.1 = k then (k, v) else p)
  else d ++ [(k, v)]

/-- One iteration of the loop in `BaseHTMLElement._attributes`: the text
contributed by a single attribute entry.  `None` and `False` contribute
nothing, `True` contributes the bare key, a string contributes
`key="value"` (or `key='value'` when the value contains a double quote), and
an `int` raises `TypeError` because Python evaluates `'"' in value`. -/
def attrPairStr : String × AttrVal → Except PyError String
  | (_, .vNone) => .ok ""
  | (k, .vBool b) => .ok (if b then " " ++ k else "")
  | (k, .vStr s) =>
      .ok (if s.data.contains '"' then " " ++ k ++ "='" ++ s ++ "'"
           else " " ++ k ++ "=\"" ++ s ++ "\"")
  | (_, .vInt _) => .error .typeError

/-- `BaseHTMLElement._attributes`: concatenate the contributions of all
attribute entries in insertion order. -/
def attributesStr : Attrs → Except PyError String
  | [] => .ok ""
  | p :: ps => do
      let s ← attrPairStr p
      let rest ← attributesStr ps
      pure (s ++ rest)

/-- A conversion function of the value-conversion hook, `(value) -> value`
restricted to scalar results (the only case the verified claims exercise). -/
abbrev ConvFun := Scalar → Scalar

/-- The process-wide conversion chain as seen through
`ConfigurationManager.get_conversion_functions`: either the loaded list of
functions, or the configuration error its first use raises. -/
inductive GlobalChain where
  | fns (l : List ConvFun)
  | err (e : PyError)

/-- `utils.convert_value`: apply the custom list when one was supplied,
otherwise fetch the process-wide chain (which may raise) and apply it. -/
def convert_value (chain : GlobalChain) (v : Scalar)
    (custom : Option (List ConvFun)) : Except PyError Scalar :=
  match custom with
  | some fns => .ok (fns.foldl (fun a fn => fn a) v)
  | none =>
      match chain with
      | .fns fns => .ok (fns.foldl (fun a fn => fn a) v)
      | .err e => .error e

mutual
/-- Post-constructor state of a `BaseHTMLElement`: tag name, attribute dict,
content list, `self_closing`, `declaration`, and the optional
`custom_utemplates_conversion_functions` list. -/
inductive HTMLElement : Type where
  | mk : (tag_name : String) → (attributes : Attrs) →
         (content : List ContentItem) → (self_closing : Bool) →
         (declaration : Bool) → (custom_conversions : Option (List ConvFun)) →
         HTMLElement

/-- One item of a `BaseHTMLElement`'s content list: a Python scalar, a nested
`BaseHTMLElement`, or a `SafeHTMLElement` wrapping a string. -/
inductive ContentItem : Type where
  | scalar : Scalar → ContentItem
  | elem : HTMLElement → ContentItem
  | safe : String → ContentItem
end

def HTMLElement.tag_name : HTMLElement → String
  | .mk t _ _ _ _ _ => t

def HTMLElement.attributes : HTMLElement → Attrs
  | .mk _ a _ _ _ _ => a

def HTMLElement.content : HTMLElement → List ContentItem
  | .mk _ _ c _ _ _ => c

def HTMLElement.self_closing : HTMLElement → Bool
  | .mk _ _ _ sc _ _ => sc

def HTMLElement.declaration : HTMLElement → Bool
  | .mk _ _ _ _ d _ => d

def HTMLElement.custom_conversions : HTMLElement → Option (List ConvFun)
  | .mk _ _ _ _ _ cv => cv

mutual
/-- `BaseHTMLElement.to_string`: opening tag (attributes may raise
`TypeError`), content segment, closing tag.  The opening tag ends in `/>`
exactly when `self_closing and not declaration`; a self-closing element has
an empty content segment and no closing tag. -/
def elem_to_string (chain : GlobalChain) : HTMLElement → Except PyError String
  | .mk tag attrs items sc decl custom => do
      let a ← attributesStr attrs
      let opening := if sc && !decl then "<" ++ tag ++ a ++ "/>"
                     else "<" ++ tag ++ a ++ ">"
      let contentStr ← if sc then pure "" else content_list chain custom items
      let closing := if sc then "" else "</" ++ tag ++ ">"
      pure (opening ++ contentStr ++ closing)

/-- The loop in `BaseHTMLElement._content`: per-item strings concatenated in
order with no separator. -/
def content_list (chain : GlobalChain) (custom : Option (List ConvFun)) :
    List ContentItem → Except PyError String
  | [] => pure ""
  | item :: rest => do
      let s ← item_string chain custom item
      let r ← content_list chain custom rest
      pure (s ++ r)

/-- `ensure_content_is_converted_and_escaped` inside
`BaseHTMLElement._content`: an item that is already a `GeneralBaseElement`
(nested element or `SafeHTMLElement`) is used via `str()` with no escaping;
any other item is passed through `convert_value` and the result is
stringified and HTML-escaped. -/
def item_string (chain : GlobalChain) (custom : Option (List ConvFun)) :
    ContentItem → Except PyError String
  | .scalar v => do
      let converted ← convert_value chain v custom
      pure (htmlEscape (pyStr converted))
  | .elem e => elem_to_string chain e
  | .safe s => pure s
end

/-- `BaseHTMLElement._content`: empty for a self-closing element, otherwise
the concatenation of the per-item strings. -/
def elem_content (chain : GlobalChain) : HTMLElement → Except PyError String
  | .mk _ _ items sc _ custom =>
      if sc then pure "" else content_list chain custom items

/-- `BaseHTMLElement._closing_tag`: empty for a self-closing element. -/
def closing_tag (e : HTMLElement) : String :=
  if e.self_closing then "" else "</" ++ e.tag_name ++ ">"

/-- `BaseHTMLElement._opening_tag`. -/
def opening_tag (e : HTMLElement) : Except PyError String := do
  let a ← attributesStr e.attributes
  if e.self_closing && !e.declaration then
    pure ("<" ++ e.tag_name ++ a ++ "/>")
  else
    pure ("<" ++ e.tag_name ++ a ++ ">")

/-- Python `str()` applied to a content item (used by the constructor's
`"".join(str(content_item) ...)` and by `GroupedBaseElement`): scalars via
`str`, elements via `to_string`, `SafeHTMLElement` via its stored string. -/
def pyStrItem (chain : GlobalChain) : ContentItem → Except PyError String
  | .scalar v => .ok (pyStr v)
  | .elem e => elem_to_string chain e
  | .safe s => .ok s

/-- `BaseHTMLElement.add_child`: append one item to the content list. -/
def add_child (e : HTMLElement) (child : ContentItem) : HTMLElement :=
  match e with
  | .mk t a items sc d cv => .mk t a (items ++ [child]) sc d cv

/-- The `content` argument of `BaseHTMLElement.__init__`: Python `None`, a
single non-iterable value (a string, bytes, or element), or a list/tuple. -/
inductive CtorContent where
  | none_
  | single (item : ContentItem)
  | items (l : List ContentItem)

/-- Content normalization at the top of `BaseHTMLElement.__init__`: `None`
becomes the empty list, a non-iterable (or string/bytes) value becomes a
one-element list, an iterable is taken as the content list itself. -/
def ctor_items : CtorContent → List ContentItem
  | .none_ => []
  | .single x => [x]
  | .items l => l

/-- Python `str.replace("_", "-")` as applied to keyword-argument names. -/
def underscore_to_hyphen (s : String) : String :=
  ⟨s.data.map (fun c => if c = '_' then '-' else c)⟩

/-- Python `" ".join(l)`, used for a `class` attribute given as a list. -/
def space_join : List String → String
  | [] => ""
  | [x] => x
  | x :: xs => x ++ " " ++ space_join xs

/-- `BaseHTMLElement.__init__`.  Normalizes `content` to a list; when
`self_closing` is passed it stores `attributes["content"] =
"".join(str(item) for item in content)` (which renders nested elements, so
it can raise); `declaration` forces `self_closing`; then the `id`, `class`,
`style`, `title`, `lang`, `dir` and `tabindex` slots are written into the
attribute dict (falling back to any value already present), and finally the
keyword overflow is folded in with underscore-to-hyphen key translation. -/
def BaseHTMLElement_init
    (tag_name : String)
    (attributes : Option Attrs)
    (content : CtorContent)
    (self_closing : Bool)
    (declaration : Bool)
    (custom_conversions : Option (List ConvFun))
    (id_attribute : Option String)
    (class_attribute : Option (String ⊕ List String))
    (style : Option String)
    (title : Option String)
    (lang : Option String)
    (dir : Option String)
    (tab_index : Option (String ⊕ Int))
    (kwargs : List (String × AttrVal))
    (chain : GlobalChain) : Except PyError HTMLElement := do
  let attrs0 : Attrs := attributes.getD []
  let items : List ContentItem := ctor_items content
  let attrs1 ←
    if self_closing then do
      let strs ← items.mapM (pyStrItem chain)
      pure (dictSet attrs0 "content" (.vStr (String.join strs)))
    else pure attrs0
  let sc := self_closing || declaration
  let idv := match id_attribute with
    | some s => AttrVal.vStr s
    | none => dictGet attrs1 "id"
  let attrs2 := dictSet attrs1 "id" idv
  let classv := match class_attribute with
    | some (.inl s) => AttrVal.vStr s
    | some (.inr l) => AttrVal.vStr (space_join l)
    | none => dictGet attrs2 "class"
  let attrs3 := dictSet attrs2 "class" classv
  let stylev := match style with
    | some s => AttrVal.vStr s
    | none => dictGet attrs3 "style"
  let attrs4 := dictSet attrs3 "style" stylev
  let titlev := match title with
    | some s => AttrVal.vStr s
    | none => dictGet attrs4 "title"
  let attrs5 := dictSet attrs4 "title" titlev
  let langv := match lang with
    | some s => AttrVal.vStr s
    | none => dictGet attrs5 "lang"
  let attrs6 := dictSet attrs5 "lang" langv
  let dirv := match dir with
    | some s => AttrVal.vStr s
    | none => dictGet attrs6 "dir"
  let attrs7 := dictSet attrs6 "dir" dirv
  let tabv := match tab_index with
    | some (.inl s) => AttrVal.vStr s
    | some (.inr n) => AttrVal.vStr (toString n)
    | none =>
        match dictGet attrs7 "tabindex" with
        | .vInt n => AttrVal.vStr (toString n)
        | .vBool b => AttrVal.vStr (pyStr (.b b))
        | v => v
  let attrs8 := dictSet attrs7 "tabindex" tabv
  let attrs9 := kwargs.foldl
    (fun d p => dictSet d (underscore_to_hyphen p.1) p.2) attrs8
  pure (.mk tag_name attrs9 items sc declaration custom_conversions)

/-- An item `render` accepts: a plain string or a `GeneralBaseElement`
(`BaseHTMLElement` or `SafeHTMLElement`). -/
inductive RItem where
  | str (s : String)
  | elem (e : HTMLElement)
  | safe (s : String)

/-- Python `str()` on a render item: strings pass through verbatim. -/
def ritem_str (chain : GlobalChain) : RItem → Except PyError String
  | .str s => .ok s
  | .elem e => elem_to_string chain e
  | .safe s => .ok s

/-- `GroupedBaseElement.to_string` on a list: `"".join(map(str, elements))`. -/
def grouped_to_string (chain : GlobalChain) :
    List RItem → Except PyError String
  | [] => .ok ""
  | x :: xs => do
      let s ← ritem_str chain x
      let r ← grouped_to_string chain xs
      pure (s ++ r)

/-- The argument of `rendering.render`: a single string/element, or an
ordered sequence of them. -/
inductive RenderInput where
  | one (item : RItem)
  | many (items : List RItem)

/-- `rendering.render`: wrap a bare string or element into a one-element
list, then concatenate via `GroupedBaseElement`. -/
def render (chain : GlobalChain) : RenderInput → Except PyError String
  | .one x => grouped_to_string chain [x]
  | .many xs => grouped_to_string chain xs

/-- Content of the configuration file, as seen through `json.load`: either a
parse error or a parsed document whose `"conversions"` key holds a list of
dotted function references. -/
inductive FileContent where
  | invalidJson
  | json (conversions : List String)
  deriving DecidableEq, Repr

/-- `configuration.DEFAULT_CONFIG_PATH`. -/
def DEFAULT_CONFIG_PATH : String := "u_templating_config.json"

/-- File-system lookup: `os.path.exists` plus reading, as an association
list from path to content. -/
def lookupFile (fs : List (String × FileContent)) (p : String) :
    Option FileContent :=
  (fs.find? (fun q => q.1 = p)).map (fun q => q.2)

/-- `ConfigurationManager._load_config`.  `env` is the value of the
`U_TEMPLATING_CONFIG_PATH` environment variable, `fs` the file system, and
`resolves` abstracts whether `importlib.import_module` plus `getattr`
succeed on a dotted reference.  The result is the final value of the class
attribute `_conversion_functions` (holding the resolved reference strings)
paired with the call's outcome.  When the path does not exist the code sets
`_conversion_functions = []` only for the default path, but in both cases it
then falls through to `open(config_path)`, which raises. -/
def load_config (env : Option String) (fs : List (String × FileContent))
    (resolves : String → Bool) :
    Option (List String) × Except PyError Unit :=
  let config_path := env.getD DEFAULT_CONFIG_PATH
  match lookupFile fs config_path with
  | none =>
      if config_path = DEFAULT_CONFIG_PATH then
        (some [], .error .fileNotFound)
      else
        (none, .error .valueError)
  | some .invalidJson => (none, .error .jsonError)
  | some (.json conversions) =>
      if conversions.all resolves then
        (some conversions, .ok ())
      else
        (none, .error .importError)

mutual
/-- Every content item in the tree below this element is itself an element
(`BaseHTMLElement` or `SafeHTMLElement`), never a scalar. -/
def all_element_tree : HTMLElement → Bool
  | .mk _ _ items _ _ _ => all_element_items items

def all_element_items : List ContentItem → Bool
  | [] => true
  | i :: is => all_element_item i && all_element_items is

def all_element_item : ContentItem → Bool
  | .scalar _ => false
  | .elem e => all_element_tree e
  | .safe _ => true
end

/-- Construct an element through `BaseHTMLElement.__init__` and render it
through the `render` entry point. -/
def construct_and_render
    (chain : GlobalChain)
    (tag_name : String)
    (attributes : Option Attrs)
    (content : CtorContent)
    (self_closing : Bool)
    (declaration : Bool) : Except PyError String := do
  let e ← BaseHTMLElement_init tag_name attributes content self_closing
    declaration none none none none none none none none [] chain
  render chain (.one (.elem e))

end UTemplates

namespace UTemplates

theorem ok_bind {α β : Type} (a : α) (f : α → Except PyError β) :
    (Except.ok a : Except PyError α) >>= f = f a := rfl

theorem error_bind {α β : Type} (e : PyError) (f : α → Except PyError β) :
    (Except.error e : Except PyError α) >>= f = Except.error e := rfl

theorem ok_map {α β : Type} (a : α) (f : α → β) :
    f <$> (Except.ok a : Except PyError α) = Except.ok (f a) := rfl

theorem error_map {α β : Type} (e : PyError) (f : α → β) :
    f <$> (Except.error e : Except PyError α) = Except.error e := rfl

theorem emap_ok {α β : Type} (a : α) (f : α → β) :
    Except.map f (Except.ok a : Except PyError α) = Except.ok (f a) := rfl

theorem emap_error {α β : Type} (e : PyError) (f : α → β) :
    Except.map f (Except.error e : Except PyError α) = Except.error e := rfl

theorem string_join_cons (s : String) (l : List String) :
    String.join (s :: l) = s ++ String.join l := by
  rw [String.join_eq, String.join_eq]
  apply String.ext
  simp [String.append]

theorem string_append_assoc (a b c : String) : a ++ b ++ c = a ++ (b ++ c) := by
  apply String.ext
  simp [String.append]

theorem render_one (chain : GlobalChain) (x : RItem) :
    render chain (.one x) = ritem_str chain x := by
  cases h : ritem_str chain x <;>
    simp [render, grouped_to_string, h, ok_bind, error_bind, ok_map, error_map,
      String.append_empty]

theorem attributesStr_middle (d1 d2 : Attrs) (p : String × AttrVal) :
    attributesStr (d1 ++ p :: d2)
      = ((attributesStr d1) >>= fun a => (attrPairStr p) >>= fun s =>
          (fun b => a ++ s ++ b) <$> attributesStr d2) := by
  induction d1 with
  | nil =>
    show ((attrPairStr p) >>= fun s =>
        (fun rest => s ++ rest) <$> attributesStr d2) = _
    cases hp : attrPairStr p with
    | error e => simp [attributesStr, error_bind, error_map, ok_bind]
    | ok s =>
      simp only [ok_bind]
      cases hd : attributesStr d2 with
      | error e => simp [attributesStr, error_bind, error_map, ok_bind]
      | ok b =>
        simp [attributesStr, ok_bind, ok_map, pure, Except.pure,
          String.empty_append]
  | cons q qs ih =>
    show ((attrPairStr q) >>= fun s =>
        (fun rest => s ++ rest) <$> attributesStr (qs ++ p :: d2)) = _
    rw [ih]
    show _ = ((attrPairStr q) >>= fun s =>
        (fun rest => s ++ rest) <$> attributesStr qs) >>= _
    cases hq : attrPairStr q with
    | error e => simp [error_bind, error_map, ok_bind]
    | ok sq =>
      simp only [ok_bind]
      cases hqs : attributesStr qs with
      | error e => simp [error_bind, error_map, ok_bind, emap_error]
      | ok a =>
        simp only [ok_map, ok_bind]
        cases hp : attrPairStr p with
        | error e => simp [error_bind, error_map, ok_bind]
        | ok sp =>
          simp only [ok_bind]
          cases hd : attributesStr d2 with
          | error e => simp [error_bind, error_map, ok_bind, emap_error]
          | ok b =>
            simp [ok_bind, ok_map, pure, Except.pure, string_append_assoc]

theorem attributesStr_append (xs ys : Attrs) :
    attributesStr (xs ++ ys)
      = ((attributesStr xs) >>= fun a => (fun b => a ++ b) <$> attributesStr ys) := by
  induction xs with
  | nil =>
    show attributesStr ys = _
    cases hd : attributesStr ys with
    | error e => simp [attributesStr, error_map, ok_bind]
    | ok b => simp [attributesStr, ok_map, ok_bind, String.empty_append]
  | cons q qs ih =>
    show ((attrPairStr q) >>= fun s =>
        (fun rest => s ++ rest) <$> attributesStr (qs ++ ys)) = _
    rw [ih]
    show _ = ((attrPairStr q) >>= fun s =>
        (fun rest => s ++ rest) <$> attributesStr qs) >>= _
    cases hq : attrPairStr q with
    | error e => simp [error_bind, error_map, ok_bind]
    | ok sq =>
      simp only [ok_bind]
      cases hqs : attributesStr qs with
      | error e => simp [error_bind, error_map, ok_bind, emap_error]
      | ok a =>
        simp only [ok_map, ok_bind]
        cases hd : attributesStr ys with
        | error e => simp [error_bind, error_map, ok_bind, emap_error]
        | ok b =>
          simp [ok_bind, ok_map, pure, Except.pure, string_append_assoc]

mutual
theorem elem_chain_irrel (chain chain' : GlobalChain) (e : HTMLElement)
    (h : all_element_tree e = true) :
    elem_to_string chain e = elem_to_string chain' e := by
  cases e with
  | mk t a items sc d cv =>
    have hi : all_element_items items = true := h
    show ((attributesStr a) >>= _) = ((attributesStr a) >>= _)
    cases ha : attributesStr a with
    | error e => simp [error_bind]
    | ok s =>
      simp only [ok_bind]
      cases sc with
      | true => rfl
      | false =>
        simp only [Bool.false_and, if_false]
        rw [items_chain_irrel chain chain' cv items hi]

theorem items_chain_irrel (chain chain' : GlobalChain)
    (custom : Option (List ConvFun)) (items : List ContentItem)
    (h : all_element_items items = true) :
    content_list chain custom items = content_list chain' custom items := by
  cases items with
  | nil => rfl
  | cons i is =>
    have h1 : all_element_item i = true := by
      have := h
      simp only [all_element_items, Bool.and_eq_true] at this
      exact this.1
    have h2 : all_element_items is = true := by
      have := h
      simp only [all_element_items, Bool.and_eq_true] at this
      exact this.2
    show ((item_string chain custom i) >>= _) = ((item_string chain' custom i) >>= _)
    rw [item_chain_irrel chain chain' custom i h1,
      items_chain_irrel chain chain' custom is h2]

theorem item_chain_irrel (chain chain' : GlobalChain)
    (custom : Option (List ConvFun)) (i : ContentItem)
    (h : all_element_item i = true) :
    item_string chain custom i = item_string chain' custom i := by
  cases i with
  | scalar v => simp [all_element_item] at h
  | elem e => exact elem_chain_irrel chain chain' e h
  | safe s => rfl
end

theorem mem_dictSet_self (d : Attrs) (k : String) (v : AttrVal) :
    (k, v) ∈ dictSet d k v := by
  unfold dictSet
  by_cases h : d.any (fun p => p.1 = k) = true
  · simp only [h, if_true]
    obtain ⟨p, hp, hpk⟩ := List.any_eq_true.mp h
    refine List.mem_map.mpr ⟨p, hp, ?_⟩
    simp only [decide_eq_true_eq] at hpk
    simp [hpk]
  · simp only [Bool.not_eq_true] at h
    simp [h]

theorem mem_dictSet_ne (d : Attrs) (k k' : String) (v w : AttrVal)
    (hne : k ≠ k') (h : (k, v) ∈ d) : (k, v) ∈ dictSet d k' w := by
  unfold dictSet
  by_cases ha : d.any (fun p => p.1 = k') = true
  · simp only [ha, if_true]
    refine List.mem_map.mpr ⟨(k, v), h, ?_⟩
    simp [hne]
  · simp only [Bool.not_eq_true] at ha
    simp [ha, List.mem_append]
    left
    exact h

theorem mem_foldl_kwargs (kwargs : List (String × AttrVal)) (d : Attrs)
    (k : String) (v : AttrVal) (h : (k, v) ∈ d)
    (hk : ∀ p ∈ kwargs, underscore_to_hyphen p.1 ≠ k) :
    (k, v) ∈ kwargs.foldl
      (fun d p => dictSet d (underscore_to_hyphen p.1) p.2) d := by
  induction kwargs generalizing d with
  | nil => exact h
  | cons q qs ih =>
    simp only [List.foldl_cons]
    refine ih _ ?_ ?_
    · exact mem_dictSet_ne _ _ _ _ _ (fun he => hk q (by simp) he.symm) h
    · intro p hp
      exact hk p (List.mem_cons_of_mem _ hp)

theorem attributesStr_mem_infix (d : Attrs) (k s a : String)
    (hmem : (k, AttrVal.vStr s) ∈ d) (ha : attributesStr d = .ok a) :
    ∃ l r, a = l ++ (if s.data.contains '"'
                     then " " ++ k ++ "='" ++ s ++ "'"
                     else " " ++ k ++ "=\"" ++ s ++ "\"") ++ r := by
  obtain ⟨d1, d2, rfl⟩ := List.append_of_mem hmem
  rw [attributesStr_middle] at ha
  cases h1 : attributesStr d1 with
  | error e => rw [h1] at ha; simp [error_bind] at ha
  | ok a1 =>
    rw [h1] at ha
    simp only [ok_bind, attrPairStr] at ha
    cases h2 : attributesStr d2 with
    | error e => rw [h2] at ha; simp [error_map] at ha
    | ok a2 =>
      rw [h2] at ha
      simp only [ok_map, Except.ok.injEq] at ha
      exact ⟨a1, a2, ha.symm⟩

/-- C1 (counterexample): rendering `BaseHTMLElement("br", self_closing=True)`
through the `render` entry point yields `<br content=""/>`, because the
constructor stores the element's (empty) content under the `content`
attribute key; so the output is not `<br/>`. -/
theorem c1_counterexample :
    construct_and_render (.fns []) "br" none .none_ true false
      = Except.ok "<br content=\"\"/>"
    ∧ construct_and_render (.fns []) "br" none .none_ true false
      ≠ Except.ok "<br/>" :=
  ⟨rfl, by decide⟩

/-- C1 (amended): for every state of the conversion chain,
`render(BaseHTMLElement("br", self_closing=True))` returns exactly
`<br content=""/>` — the `/>` form as claimed, but with the `content=""`
attribute the constructor injects for self-closing elements. -/
theorem c1_br_render (chain : GlobalChain) :
    construct_and_render chain "br" none .none_ true false
      = Except.ok "<br content=\"\"/>" := by
  cases chain <;> rfl

/-- C2 (counterexample): an element with the integer-valued attribute
`{"x": 5}` does not render as `x="5"`; `_attributes` evaluates `'"' in 5`,
which raises `TypeError`. -/
theorem c2_counterexample :
    elem_to_string (.fns []) (.mk "div" [("x", .vInt 5)] [] false false none)
      = Except.error .typeError
    ∧ elem_to_string (.fns []) (.mk "div" [("x", .vInt 5)] [] false false none)
      ≠ Except.ok "<div x=\"5\"></div>" :=
  ⟨rfl, by decide⟩

/-- C2 (amended): in an element's attribute output, a `None` value
contributes nothing (the attribute is omitted), `False` contributes nothing,
`True` contributes a single space and the bare key, and a string value
contributes `key="value"` — or `key='value'` when the value contains a
double quote; a non-string, non-boolean, non-`None` value such as an
integer raises `TypeError` instead of rendering. -/
theorem c2_attribute_rules (k sv : String) (n : Int) (d1 d2 : Attrs) :
    attributesStr (d1 ++ (k, .vNone) :: d2) = attributesStr (d1 ++ d2)
    ∧ attributesStr (d1 ++ (k, .vBool false) :: d2) = attributesStr (d1 ++ d2)
    ∧ attributesStr (d1 ++ (k, .vBool true) :: d2)
        = ((attributesStr d1) >>= fun a =>
            (fun b => a ++ (" " ++ k) ++ b) <$> attributesStr d2)
    ∧ attributesStr (d1 ++ (k, .vStr sv) :: d2)
        = ((attributesStr d1) >>= fun a =>
            (fun b => a ++ (if sv.data.contains '"'
                            then " " ++ k ++ "='" ++ sv ++ "'"
                            else " " ++ k ++ "=\"" ++ sv ++ "\"") ++ b)
              <$> attributesStr d2)
    ∧ attributesStr (d1 ++ (k, .vInt n) :: d2)
        = ((attributesStr d1) >>= fun _ =>
            (Except.error .typeError : Except PyError String)) := by
  refine ⟨?_, ?_, ?_, ?_, ?_⟩ <;> rw [attributesStr_middle]
  · rw [attributesStr_append]
    cases ha : attributesStr d1 with
    | error e => simp [error_bind]
    | ok a =>
      simp only [ok_bind, attrPairStr]
      cases hb : attributesStr d2 with
      | error e => simp [error_bind, error_map, ok_bind, emap_error]
      | ok b => simp [ok_bind, ok_map, String.append_empty]
  · rw [attributesStr_append]
    cases ha : attributesStr d1 with
    | error e => simp [error_bind]
    | ok a =>
      simp only [ok_bind, attrPairStr]
      cases hb : attributesStr d2 with
      | error e => simp [error_bind, error_map, ok_bind, emap_error]
      | ok b => simp [ok_bind, ok_map, String.append_empty]
  · cases ha : attributesStr d1 with
    | error e => simp [error_bind]
    | ok a => simp [ok_bind, attrPairStr]
  · cases ha : attributesStr d1 with
    | error e => simp [error_bind]
    | ok a => simp [ok_bind, attrPairStr]
  · cases ha : attributesStr d1 with
    | error e => simp [error_bind]
    | ok a =>
      simp only [ok_bind, attrPairStr]
      simp [error_bind]

/-- C3: evaluated behavior of `_load_config`.  With no environment override
and no default file, the code sets `_conversion_functions = []` but — because
the missing-file branch does not return — still executes
`open(config_path)`, raising `FileNotFoundError` on first use, contrary to
the claim that no exception is raised; with an explicitly configured
non-default path that does not exist, it raises `ValueError` as claimed. -/
theorem c3_load_config_behavior (resolves : String → Bool) :
    load_config none [] resolves = (some [], .error .fileNotFound)
    ∧ load_config (some "my_config.json") [] resolves
        = (none, .error .valueError) :=
  ⟨rfl, rfl⟩

/-- C4: rendering a sequence equals the concatenation, in order, of
rendering each item separately, and rendering the empty sequence yields the
empty string with no error. -/
theorem c4_render_concat (chain : GlobalChain) (items : List RItem) :
    render chain (.many items)
      = (items.mapM (fun a => render chain (.one a))).map String.join
    ∧ render chain (.many []) = Except.ok "" := by
  constructor
  · have hfn : (fun a => render chain (.one a)) = ritem_str chain :=
      funext (render_one chain)
    rw [hfn, ← List.mapM'_eq_mapM]
    show grouped_to_string chain items = _
    induction items with
    | nil => rfl
    | cons x xs ih =>
      simp only [grouped_to_string, List.mapM']
      cases hx : ritem_str chain x with
      | error e => simp [hx, error_bind, error_map, ok_bind, emap_error, emap_ok]
      | ok s =>
        simp only [hx, ok_bind]
        cases hxs : List.mapM' (ritem_str chain) xs with
        | error e =>
          rw [hxs] at ih
          simp [ih, error_bind, error_map, ok_bind, emap_error, emap_ok]
        | ok bs =>
          rw [hxs] at ih
          simp [ih, emap_ok, string_join_cons, ok_bind, pure, Except.pure]
  · rfl

/-- C5: wrapping the rendered output of any element in a `SafeHTMLElement`
and rendering again performs no further escaping and returns the same
string. -/
theorem c5_safe_roundtrip (chain : GlobalChain) (e : HTMLElement) (s : String)
    (h : render chain (.one (.elem e)) = .ok s) :
    render chain (.one (.safe s)) = .ok s := by
  simp [render, grouped_to_string, ritem_str, ok_bind, ok_map,
    String.append_empty]

/-- C5 witness: instantiation of the round trip at `<div></div>`. -/
theorem c5_safe_roundtrip_witness :
    render (.fns []) (.one (.safe "<div></div>")) = Except.ok "<div></div>" :=
  c5_safe_roundtrip (.fns []) (.mk "div" [] [] false false none)
    "<div></div>" rfl

/-- C6: an element whose `self_closing` flag is set has an empty content
segment and an empty closing segment, whatever its content list contains,
and this remains true after appending any child with `add_child`. -/
theorem c6_self_closing (chain : GlobalChain) (e : HTMLElement)
    (child : ContentItem) (h : e.self_closing = true) :
    elem_content chain e = Except.ok ""
    ∧ closing_tag e = ""
    ∧ elem_content chain (add_child e child) = Except.ok ""
    ∧ closing_tag (add_child e child) = "" := by
  cases e with
  | mk t a items sc d cv =>
    simp only [HTMLElement.self_closing] at h
    subst h
    refine ⟨rfl, ?_, rfl, ?_⟩ <;>
      simp [closing_tag, add_child, HTMLElement.self_closing]

/-- C6 witness: instantiation at a `br` element with a force-injected
child. -/
theorem c6_self_closing_witness :
    (HTMLElement.mk "br" [] [] true false none).self_closing = true
    ∧ (elem_content (.fns []) (HTMLElement.mk "br" [] [] true false none)
        = Except.ok ""
       ∧ closing_tag (HTMLElement.mk "br" [] [] true false none) = ""
       ∧ elem_content (.fns [])
           (add_child (HTMLElement.mk "br" [] [] true false none)
             (.scalar (.s "X"))) = Except.ok ""
       ∧ closing_tag (add_child (HTMLElement.mk "br" [] [] true false none)
           (.scalar (.s "X"))) = "") :=
  ⟨rfl, c6_self_closing (.fns []) _ (.scalar (.s "X")) rfl⟩

/-- C7: with conversion functions `f` then `g` active — via the process-wide
chain or a per-element override — the content segment of an element whose
single content item is a scalar `v` is the HTML-escaped string form of
`g(f(v))`; with the empty chain it is the escaped form of `v` itself. -/
theorem c7_conversion (f g : ConvFun) (v : Scalar) (tag : String)
    (chain : GlobalChain) :
    elem_content (.fns [f, g]) (.mk tag [] [.scalar v] false false none)
      = Except.ok (htmlEscape (pyStr (g (f v))))
    ∧ elem_content chain (.mk tag [] [.scalar v] false false (some [f, g]))
      = Except.ok (htmlEscape (pyStr (g (f v))))
    ∧ elem_content (.fns []) (.mk tag [] [.scalar v] false false none)
      = Except.ok (htmlEscape (pyStr v)) := by
  refine ⟨?_, ?_, ?_⟩ <;>
    simp [elem_content, content_list, item_string, convert_value, ok_bind,
      String.append_empty, pure, Except.pure, List.foldl]

/-- C8 (counterexample): rendering the generic element
`BaseHTMLElement("!DOCTYPE", attributes={"html": True}, self_closing=True)`
yields `<!DOCTYPE html content=""/>` — with the injected `content=""`
attribute and the `/>` of a non-declaration self-closing tag — not
`<!DOCTYPE html>`. -/
theorem c8_counterexample :
    construct_and_render (.fns []) "!DOCTYPE" (some [("html", .vBool true)])
      .none_ true false
      = Except.ok "<!DOCTYPE html content=\"\"/>"
    ∧ construct_and_render (.fns []) "!DOCTYPE" (some [("html", .vBool true)])
      .none_ true false
      ≠ Except.ok "<!DOCTYPE html>" :=
  ⟨rfl, by decide⟩

/-- C8 (amended): for every state of the conversion chain, the
`self_closing=True` construction renders `<!DOCTYPE html content=""/>`,
while passing `declaration=True` instead (as the library's `DoctypeElement`
path relies on the declaration flag to suppress the trailing slash) renders
exactly `<!DOCTYPE html>`. -/
theorem c8_doctype_render (chain : GlobalChain) :
    construct_and_render chain "!DOCTYPE" (some [("html", .vBool true)])
      .none_ true false
      = Except.ok "<!DOCTYPE html content=\"\"/>"
    ∧ construct_and_render chain "!DOCTYPE" (some [("html", .vBool true)])
      .none_ false true
      = Except.ok "<!DOCTYPE html>" := by
  cases chain <;> exact ⟨rfl, rfl⟩

/-- C9: rendering an element all of whose content items (recursively) are
elements never consults the conversion chain — its output is identical under
every chain state, so it cannot fail from configuration issues — while
rendering an element with a scalar content item and no per-element override
surfaces the pending configuration error. -/
theorem c9_config_error_surface (e : HTMLElement)
    (h : all_element_tree e = true) (chain chain' : GlobalChain)
    (pe : PyError) (tag : String) (v : Scalar) :
    elem_to_string chain e = elem_to_string chain' e
    ∧ elem_to_string (.err pe) (.mk tag [] [.scalar v] false false none)
        = Except.error pe :=
  ⟨elem_chain_irrel chain chain' e h, rfl⟩

/-- C9 witness: instantiation at `<div><br/></div>` (all-element tree) and a
paragraph with scalar content under a failed configuration. -/
theorem c9_config_error_surface_witness :
    all_element_tree
      (.mk "div" [] [.elem (.mk "br" [] [] true false none)] false false none)
      = true
    ∧ (elem_to_string (.fns [])
         (.mk "div" [] [.elem (.mk "br" [] [] true false none)]
           false false none)
        = elem_to_string (.err .jsonError)
            (.mk "div" [] [.elem (.mk "br" [] [] true false none)]
              false false none)
       ∧ elem_to_string (.err .jsonError)
           (.mk "p" [] [.scalar (.s "x")] false false none)
          = Except.error .jsonError) :=
  ⟨rfl, c9_config_error_surface
    (.mk "div" [] [.elem (.mk "br" [] [] true false none)] false false none)
    rfl (.fns []) (.err .jsonError) .jsonError "p" (.s "x")⟩

/-- C10: every element constructed with `self_closing=True` gets a
`content` attribute holding the concatenation of `str()` of its content
items — with no HTML escaping — and whenever the attribute string renders,
it contains the corresponding `content="..."` (or `content='...'`)
fragment. -/
theorem c10_content_attribute
    (tag : String) (attributes : Option Attrs) (content : CtorContent)
    (custom : Option (List ConvFun)) (idp : Option String)
    (clsp : Option (String ⊕ List String)) (st ti la di : Option String)
    (tb : Option (String ⊕ Int)) (kwargs : List (String × AttrVal))
    (chain : GlobalChain) (e : HTMLElement)
    (hkw : ∀ p ∈ kwargs, underscore_to_hyphen p.1 ≠ "content")
    (h : BaseHTMLElement_init tag attributes content true false custom
          idp clsp st ti la di tb kwargs chain = .ok e) :
    ∃ strs, (ctor_items content).mapM (pyStrItem chain) = .ok strs
      ∧ ("content", AttrVal.vStr (String.join strs)) ∈ e.attributes
      ∧ ∀ a, attributesStr e.attributes = .ok a →
          ∃ l r, a = l ++ (if (String.join strs).data.contains '"'
                           then " content='" ++ String.join strs ++ "'"
                           else " content=\"" ++ String.join strs ++ "\"") ++ r := by
  unfold BaseHTMLElement_init at h
  simp only [if_true] at h
  cases hm : (ctor_items content).mapM (pyStrItem chain) with
  | error err =>
    rw [hm] at h
    simp [error_bind] at h
  | ok strs =>
    rw [hm] at h
    simp only [ok_bind, ok_map, Except.ok.injEq, pure, Except.pure] at h
    refine ⟨strs, rfl, ?_, ?_⟩
    · rw [← h]
      simp only [HTMLElement.attributes]
      apply mem_foldl_kwargs _ _ _ _ _ hkw
      apply mem_dictSet_ne _ _ _ _ _ (by decide)
      apply mem_dictSet_ne _ _ _ _ _ (by decide)
      apply mem_dictSet_ne _ _ _ _ _ (by decide)
      apply mem_dictSet_ne _ _ _ _ _ (by decide)
      apply mem_dictSet_ne _ _ _ _ _ (by decide)
      apply mem_dictSet_ne _ _ _ _ _ (by decide)
      apply mem_dictSet_ne _ _ _ _ _ (by decide)
      exact mem_dictSet_self _ _ _
    · intro a ha
      have hmem : ("content", AttrVal.vStr (String.join strs)) ∈ e.attributes := by
        rw [← h]
        simp only [HTMLElement.attributes]
        apply mem_foldl_kwargs _ _ _ _ _ hkw
        apply mem_dictSet_ne _ _ _ _ _ (by decide)
        apply mem_dictSet_ne _ _ _ _ _ (by decide)
        apply mem_dictSet_ne _ _ _ _ _ (by decide)
        apply mem_dictSet_ne _ _ _ _ _ (by decide)
        apply mem_dictSet_ne _ _ _ _ _ (by decide)
        apply mem_dictSet_ne _ _ _ _ _ (by decide)
        apply mem_dictSet_ne _ _ _ _ _ (by decide)
        exact mem_dictSet_self _ _ _
      exact attributesStr_mem_infix _ "content" (String.join strs) a hmem ha

/-- C10 witness: instantiation at `BaseHTMLElement("img", content="Hello",
self_closing=True)`. -/
theorem c10_content_attribute_witness :
    ∃ strs, (ctor_items (.items [.scalar (.s "Hello")])).mapM
        (pyStrItem (.fns [])) = .ok strs
      ∧ ("content", AttrVal.vStr (String.join strs)) ∈
          (HTMLElement.mk "img"
            [("content", .vStr "Hello"), ("id", .vNone), ("class", .vNone),
             ("style", .vNone), ("title", .vNone), ("lang", .vNone),
             ("dir", .vNone), ("tabindex", .vNone)]
            [.scalar (.s "Hello")] true false none).attributes
      ∧ ∀ a, attributesStr (HTMLElement.mk "img"
            [("content", .vStr "Hello"), ("id", .vNone), ("class", .vNone),
             ("style", .vNone), ("title", .vNone), ("lang", .vNone),
             ("dir", .vNone), ("tabindex", .vNone)]
            [.scalar (.s "Hello")] true false none).attributes = .ok a →
          ∃ l r, a = l ++ (if (String.join strs).data.contains '"'
                           then " content='" ++ String.join strs ++ "'"
                           else " content=\"" ++ String.join strs ++ "\"") ++ r :=
  c10_content_attribute "img" none (.items [.scalar (.s "Hello")]) none none
    none none none none none none [] (.fns [])
    (HTMLElement.mk "img"
      [("content", .vStr "Hello"), ("id", .vNone), ("class", .vNone),
       ("style", .vNone), ("title", .vNone), ("lang", .vNone),
       ("dir", .vNone), ("tabindex", .vNone)]
      [.scalar (.s "Hello")] true false none)
    (by simp) (by rfl)

end UTemplates
